import Mathlib

/-!
Shallow embedding of the EarthsFirewall asteroid-impact backend.

Every definition below is translated from the Python source file named in
its doc comment.  Python floats are idealised as real numbers `ℝ` for the
closed-form physics formulas, and as exact rationals `ℚ` for the purely
rational game-engine and deflection-percentage arithmetic, so that those
parts stay executable.  Python dictionaries that hold a fixed set of keys
are modelled as structures; a fallible method (one that can raise) is
modelled as a function into `Except Unit _`.
-/

open Real

namespace Constants

/-- Python `JOULES_TO_MEGATONS` from `src/backend/utils/constants.py` line 31. -/
noncomputable def JOULES_TO_MEGATONS : ℝ := 1 / 4.184e15

/-- Python `MEGATONS_TO_JOULES` from `src/backend/utils/constants.py` line 32. -/
noncomputable def MEGATONS_TO_JOULES : ℝ := 4.184e15

/-- Python `DEFLECTION_EFFICIENCY` from `src/backend/utils/constants.py` line 42. -/
def DEFLECTION_EFFICIENCY : ℚ := 0.5

/-- Python `BASE_SCORE` from `src/backend/utils/constants.py` line 70. -/
def BASE_SCORE : ℤ := 1000

/-- One value of the `GAME_LEVELS` dict from `src/backend/utils/constants.py`. -/
structure LevelConfig where
  asteroid_size : ℚ
  time_limit : ℚ
  difficulty : String
deriving DecidableEq

/-- The `GAME_LEVELS` dict from `src/backend/utils/constants.py` lines 61-67,
modelled as a lookup function (`none` models a missing key). -/
def GAME_LEVELS (level : ℕ) : Option LevelConfig :=
  if level = 1 then some ⟨10, 300, "Easy"⟩
  else if level = 2 then some ⟨50, 240, "Medium"⟩
  else if level = 3 then some ⟨100, 180, "Hard"⟩
  else if level = 4 then some ⟨500, 120, "Expert"⟩
  else if level = 5 then some ⟨1000, 60, "Nightmare"⟩
  else none

end Constants

/-!
Methods of the `ImpactSimulation` dataclass in `src/backend/models/impact.py`.
None of the methods modelled here reads instance state, so they are plain
functions.
-/

namespace ImpactSimulation

/-- Python `ImpactSimulation.calculate_impact_energy`, `src/backend/models/impact.py`
lines 38-43.  `math.radians(angle)` is `angle * π / 180`. -/
noncomputable def calculate_impact_energy (mass velocity angle : ℝ) : ℝ :=
  let angle_rad := angle * π / 180
  let effective_mass := mass * Real.sin angle_rad
  let velocity_ms := velocity * 1000
  0.5 * effective_mass * velocity_ms ^ 2

/-- Python `ImpactSimulation.energy_to_tnt_equivalent`, `src/backend/models/impact.py`
lines 45-47. -/
noncomputable def energy_to_tnt_equivalent (energy_joules : ℝ) : ℝ :=
  energy_joules / 4.184e15

/-- Python `ImpactSimulation.energy_to_magnitude`, `src/backend/models/impact.py`
lines 49-53. -/
noncomputable def energy_to_magnitude (energy_joules : ℝ) : ℝ :=
  if energy_joules ≤ 0 then 0
  else (Real.logb 10 energy_joules - 4.8) / 1.5

/-- One entry of the dict built by `ImpactSimulation.calculate_blast_effects`. -/
structure BlastEntry where
  overpressure_kpa : ℝ
  damage_level : String
  distance_km : ℝ

/-- The loop body of `ImpactSimulation.calculate_blast_effects`,
`src/backend/models/impact.py` lines 81-101: the entry computed for one
distance.  In Python `1/3` is evaluated first, so the exponent is the real
number one third. -/
noncomputable def blast_entry (energy_joules distance : ℝ) : BlastEntry :=
  let tnt_equivalent := energy_to_tnt_equivalent energy_joules
  let overpressure := 1000 * tnt_equivalent ^ ((1 : ℝ) / 3) / distance ^ 2
  let damage_level : String :=
    if overpressure > 200 then "Complete destruction"
    else if overpressure > 100 then "Severe damage"
    else if overpressure > 50 then "Moderate damage"
    else if overpressure > 20 then "Light damage"
    else "No significant damage"
  ⟨overpressure, damage_level, distance⟩

/-- Python `ImpactSimulation.calculate_blast_effects`, `src/backend/models/impact.py`
lines 76-103: the per-distance dict, keyed by distance. -/
noncomputable def calculate_blast_effects (energy_joules : ℝ)
    (distances : List ℝ) : List BlastEntry :=
  distances.map (blast_entry energy_joules)

end ImpactSimulation

/-!
Methods of `USGSSeismicService` in `src/backend/api/nasa_integration.py`.
-/

namespace USGSSeismicService

/-- Python `USGSSeismicService.get_earthquake_magnitude_energy_relation`,
`src/backend/api/nasa_integration.py` lines 482-487. -/
noncomputable def get_earthquake_magnitude_energy_relation (magnitude : ℝ) : ℝ :=
  let energy_ergs := (10 : ℝ) ^ (1.5 * magnitude + 4.8)
  energy_ergs / 1e7

/-- Python `USGSSeismicService.get_equivalent_magnitude`,
`src/backend/api/nasa_integration.py` lines 489-495. -/
noncomputable def get_equivalent_magnitude (energy_joules : ℝ) : ℝ :=
  let energy_ergs := energy_joules * 1e7
  (Real.logb 10 energy_ergs - 4.8) / 1.5

end USGSSeismicService

/-!
Methods of `ImpactSimulationService` in `src/backend/api/nasa_integration.py`.
-/

namespace ImpactSimulationService

/-- Python `ImpactSimulationService.calculate_impact_energy`,
`src/backend/api/nasa_integration.py` lines 631-643 (`asteroid.mass` is
passed in as `mass`). -/
noncomputable def calculate_impact_energy (mass impact_velocity impact_angle : ℝ) : ℝ :=
  let angle_rad := impact_angle * π / 180
  let effective_mass := mass * Real.sin angle_rad
  0.5 * effective_mass * (impact_velocity * 1000) ^ 2

/-- The dict returned by `ImpactSimulationService.calculate_blast_effects`. -/
structure BlastResult where
  overpressure_kpa : ℝ
  thermal_flux_cal_cm2 : ℝ
  damage_level : String
  distance_km : ℝ

/-- Python `ImpactSimulationService.calculate_blast_effects`,
`src/backend/api/nasa_integration.py` lines 674-702. -/
noncomputable def calculate_blast_effects (energy_joules distance_km : ℝ) : BlastResult :=
  let tnt_equivalent := energy_joules / 4.184e9
  let overpressure := 1000 * tnt_equivalent ^ ((1 : ℝ) / 3) / distance_km ^ 2
  let thermal_flux := 1000 * tnt_equivalent ^ ((1 : ℝ) / 3) / distance_km ^ 2
  let damage_level : String :=
    if overpressure > 200 then "Complete destruction"
    else if overpressure > 100 then "Severe damage"
    else if overpressure > 50 then "Moderate damage"
    else if overpressure > 20 then "Light damage"
    else "No significant damage"
  ⟨overpressure, thermal_flux, damage_level, distance_km⟩

end ImpactSimulationService

/-!
Claims C1, C2, C5, C6, C8.
-/

/-- C1, counterexample: at mass 1 kg, velocity 1 km/s and impact angle 30°,
the computed impact energy is 0.5·(1·sin 30°)·1000² = 250000 J, not the
claimed 0.5·m·v² = 0.5·1·1000² = 500000 J: the claim omits the
sin(angle) effective-mass factor. -/
theorem calculate_impact_energy_not_half_mv_sq :
    ImpactSimulation.calculate_impact_energy 1 1 30 ≠ 0.5 * 1 * (1 * 1000) ^ 2 := by
  unfold ImpactSimulation.calculate_impact_energy
  dsimp only
  have h : (30 : ℝ) * π / 180 = π / 6 := by ring
  rw [h, Real.sin_pi_div_six]
  norm_num

/-- C1, amended: for every mass, velocity and angle, both implementations of
the impact kinetic energy return sin(angle in radians) times 0.5·m·v²,
with v converted from km/s to m/s before squaring, and the two
implementations agree. -/
theorem calculate_impact_energy_formula (m v angle : ℝ) :
    ImpactSimulation.calculate_impact_energy m v angle
      = Real.sin (angle * π / 180) * (0.5 * m * (v * 1000) ^ 2) ∧
    ImpactSimulationService.calculate_impact_energy m v angle
      = ImpactSimulation.calculate_impact_energy m v angle := by
  unfold ImpactSimulation.calculate_impact_energy
    ImpactSimulationService.calculate_impact_energy
  constructor <;> ring

/-- C2, counterexample: at energy 1 J, `ImpactSimulation.energy_to_magnitude`
returns (log10 1 − 4.8)/1.5 = −3.2 while
`USGSSeismicService.get_equivalent_magnitude` returns
(log10 10⁷ − 4.8)/1.5 = 2.2/1.5, so the two duplicate implementations are
not equal. -/
theorem magnitude_implementations_disagree :
    USGSSeismicService.get_equivalent_magnitude 1 ≠ ImpactSimulation.energy_to_magnitude 1 := by
  unfold USGSSeismicService.get_equivalent_magnitude ImpactSimulation.energy_to_magnitude
  dsimp only
  have h7 : (1 : ℝ) * 1e7 = 10 ^ (7 : ℕ) := by norm_num
  rw [h7, Real.logb_pow, Real.logb_self_eq_one (by norm_num), if_neg (by norm_num)]
  rw [Real.logb_one]
  norm_num

/-- C2, amended: for every energy E > 0 the two implementations differ by the
constant 7/1.5 (≈ 4.667): `USGSSeismicService.get_equivalent_magnitude`
first converts joules to ergs (×10⁷), which shifts the base-10 logarithm
by 7, while `ImpactSimulation.energy_to_magnitude` does not. -/
theorem magnitude_implementations_offset (E : ℝ) (hE : 0 < E) :
    USGSSeismicService.get_equivalent_magnitude E
      = ImpactSimulation.energy_to_magnitude E + 7 / 1.5 := by
  unfold USGSSeismicService.get_equivalent_magnitude ImpactSimulation.energy_to_magnitude
  dsimp only
  have h7 : (1e7 : ℝ) = 10 ^ (7 : ℕ) := by norm_num
  rw [if_neg (not_le.mpr hE), Real.logb_mul (ne_of_gt hE) (by norm_num), h7,
    Real.logb_pow, Real.logb_self_eq_one (by norm_num)]
  ring

/-- C2, witness for the amended theorem at E = 1. -/
theorem magnitude_implementations_offset_witness :
    USGSSeismicService.get_equivalent_magnitude 1
      = ImpactSimulation.energy_to_magnitude 1 + 7 / 1.5 :=
  magnitude_implementations_offset 1 (by norm_num)

/-- C5: for every energy E in joules, `ImpactSimulation.energy_to_tnt_equivalent`
returns exactly E / 4.184×10¹⁵ megatons, which is also E multiplied by the
constant `JOULES_TO_MEGATONS` = 1/4.184×10¹⁵. -/
theorem energy_to_tnt_equivalent_is_division (E : ℝ) :
    ImpactSimulation.energy_to_tnt_equivalent E = E / 4.184e15 ∧
    ImpactSimulation.energy_to_tnt_equivalent E = E * Constants.JOULES_TO_MEGATONS := by
  unfold ImpactSimulation.energy_to_tnt_equivalent Constants.JOULES_TO_MEGATONS
  constructor
  · rfl
  · ring

/-- C6: blast overpressure falls off with the inverse square of distance: for
every energy and all positive distances d₁, d₂, overpressure·d² is the same
at d₁ and d₂, for both duplicate implementations of the blast-effects
formula. -/
theorem blast_overpressure_inverse_square (E d₁ d₂ : ℝ) (h₁ : 0 < d₁) (h₂ : 0 < d₂) :
    (ImpactSimulation.blast_entry E d₁).overpressure_kpa * d₁ ^ 2
      = (ImpactSimulation.blast_entry E d₂).overpressure_kpa * d₂ ^ 2 ∧
    (ImpactSimulationService.calculate_blast_effects E d₁).overpressure_kpa * d₁ ^ 2
      = (ImpactSimulationService.calculate_blast_effects E d₂).overpressure_kpa * d₂ ^ 2 := by
  unfold ImpactSimulation.blast_entry ImpactSimulationService.calculate_blast_effects
  constructor <;> · simp only []
                    field_simp

/-- C6, witness at E = 1, d₁ = 1, d₂ = 2. -/
theorem blast_overpressure_inverse_square_witness :
    (ImpactSimulation.blast_entry 1 1).overpressure_kpa * 1 ^ 2
      = (ImpactSimulation.blast_entry 1 2).overpressure_kpa * 2 ^ 2 ∧
    (ImpactSimulationService.calculate_blast_effects 1 1).overpressure_kpa * 1 ^ 2
      = (ImpactSimulationService.calculate_blast_effects 1 2).overpressure_kpa * 2 ^ 2 :=
  blast_overpressure_inverse_square 1 1 2 (by norm_num) (by norm_num)

/-- C8: the USGS magnitude/energy pair is an exact round trip: converting a
magnitude to energy (ergs-based, then ergs→joules) and back returns the
original magnitude. -/
theorem usgs_magnitude_energy_round_trip (M : ℝ) :
    USGSSeismicService.get_equivalent_magnitude
      (USGSSeismicService.get_earthquake_magnitude_energy_relation M) = M := by
  unfold USGSSeismicService.get_equivalent_magnitude
    USGSSeismicService.get_earthquake_magnitude_energy_relation
  dsimp only
  have h : (10 : ℝ) ^ (1.5 * M + 4.8) / 1e7 * 1e7 = (10 : ℝ) ^ (1.5 * M + 4.8) :=
    div_mul_cancel₀ _ (by norm_num)
  rw [h, Real.logb_rpow (by norm_num) (by norm_num)]
  rw [show (1.5 * M + 4.8 - 4.8) = 1.5 * M by ring]
  exact mul_div_cancel_left₀ M (by norm_num)

/-!
The game engine, `src/backend/simulation/game_engine.py`.

`time.time()` wall-clock stamps (`game_start_time`) are outside the
embedding.  The `Asteroid.mass` attribute is computed by
`calculate_mass_from_diameter`, which is commented out in
`src/backend/calculations/impact_physics.py` and is read by none of the
operations modelled here, so the field is omitted.  Asteroid velocity and
density are drawn from `np.random.uniform` in `_create_asteroid_for_level`;
the sampled values are passed in as explicit parameters.
-/

/-- Python `GameState` enum, `src/backend/simulation/game_engine.py` lines 25-30. -/
inductive GameState where
  | MENU
  | PLAYING
  | PAUSED
  | GAME_OVER
  | VICTORY
deriving DecidableEq

/-- The `Asteroid` dataclass, `src/backend/simulation/game_engine.py`
lines 37-58 (fields read by the modelled operations). -/
structure Asteroid where
  name : String
  diameter : ℚ
  velocity : ℚ
  density : ℚ
  position : ℚ × ℚ × ℚ
deriving DecidableEq

/-- The mutable fields of `GameEngine`, `src/backend/simulation/game_engine.py`
lines 82-90. -/
structure GameEngine where
  state : GameState
  level : ℕ
  score : ℤ
  time_remaining : ℚ
  asteroid : Option Asteroid
  simulation_time : ℚ
deriving DecidableEq

namespace GameEngine

/-- Python `GameEngine.__init__`, `src/backend/simulation/game_engine.py` lines 82-90. -/
def init : GameEngine :=
  { state := GameState.MENU, level := 1, score := 0, time_remaining := 0,
    asteroid := none, simulation_time := 0 }

/-- Python `GameEngine._create_asteroid_for_level`, lines 115-129: `velocity` and
`density` are the values sampled by `np.random.uniform`; the dataclass
default position is `(0, 0, 0)`. -/
def _create_asteroid_for_level (level : ℕ) (asteroid_size velocity density : ℚ) :
    Asteroid :=
  { name := "Threat-" ++ toString level,
    diameter := asteroid_size / 1000,
    velocity := velocity,
    density := density,
    position := (0, 0, 0) }

/-- Python `GameEngine.start_game`, lines 92-113.  A level missing from
`GAME_LEVELS` raises `ValueError`, modelled as `Except.error ()`. -/
def start_game (g : GameEngine) (level : ℕ) (velocity density : ℚ) :
    Except Unit GameEngine :=
  match Constants.GAME_LEVELS level with
  | none => Except.error ()
  | some level_config =>
      Except.ok
        { g with
          level := level,
          state := GameState.PLAYING,
          score := 0,
          simulation_time := 0,
          asteroid := some (_create_asteroid_for_level level
            level_config.asteroid_size velocity density),
          time_remaining := level_config.time_limit }

/-- Python `GameEngine._update_asteroid_position`, lines 323-335. -/
def _update_asteroid_position (a : Asteroid) (delta_time : ℚ) : Asteroid :=
  let velocity_factor := a.velocity * delta_time / 86400
  { a with
    position := (a.position.1 - velocity_factor,
                 a.position.2.1,
                 a.position.2.2 - velocity_factor * 0.1) }

/-- Python `GameEngine._check_impact`, lines 337-344:
`np.linalg.norm(position) < 6371`, stated on squares (both sides are
nonnegative, so `‖p‖ < 6371 ↔ ‖p‖² < 6371²`) to stay inside `ℚ`. -/
def _check_impact (a : Asteroid) : Bool :=
  decide (a.position.1 ^ 2 + a.position.2.1 ^ 2 + a.position.2.2 ^ 2 < 6371 ^ 2)

/-- Python `GameEngine.update_game_state`, lines 204-239 (the state mutation; the
returned status dict is a projection of the new state and is not
modelled separately). -/
def update_game_state (g : GameEngine) (delta_time : ℚ) : GameEngine :=
  if g.state ≠ GameState.PLAYING then g
  else
    let g₁ := { g with
      simulation_time := g.simulation_time + delta_time,
      time_remaining := g.time_remaining - delta_time }
    if g₁.time_remaining ≤ 0 then { g₁ with state := GameState.GAME_OVER }
    else
      match g₁.asteroid with
      | none => g₁
      | some a =>
          let a' := _update_asteroid_position a delta_time
          let g₂ := { g₁ with asteroid := some a' }
          if _check_impact a' then { g₂ with state := GameState.GAME_OVER }
          else g₂

/-- Python `GameEngine.pause_game`, lines 241-244. -/
def pause_game (g : GameEngine) : GameEngine :=
  if g.state = GameState.PLAYING then { g with state := GameState.PAUSED } else g

/-- Python `GameEngine.resume_game`, lines 246-249. -/
def resume_game (g : GameEngine) : GameEngine :=
  if g.state = GameState.PAUSED then { g with state := GameState.PLAYING } else g

/-- Python `GameEngine.reset_game`, lines 251-259: restores exactly the `__init__`
fields. -/
def reset_game (_ : GameEngine) : GameEngine := init

/-- Engine states reachable from a fresh `GameEngine` by the operations of
claim C3: `start_game` (with any level and any sampled asteroid
parameters; a failed `start_game` leaves the engine unchanged),
`update_game_state` with a non-negative `delta_time`, `pause_game`,
`resume_game` and `reset_game`. -/
inductive Reachable : GameEngine → Prop where
  | init : Reachable init
  | start (g g' : GameEngine) (level : ℕ) (v d : ℚ) :
      Reachable g → start_game g level v d = Except.ok g' → Reachable g'
  | update (g : GameEngine) (delta_time : ℚ) :
      Reachable g → 0 ≤ delta_time → Reachable (update_game_state g delta_time)
  | pause (g : GameEngine) : Reachable g → Reachable (pause_game g)
  | resume (g : GameEngine) : Reachable g → Reachable (resume_game g)
  | reset (g : GameEngine) : Reachable g → Reachable (reset_game g)

end GameEngine

/-!
Claims C3, C7, C9.
-/

/-- The engine produced by `start_game(level=1)` from a fresh engine, with
sampled asteroid velocity 15 km/s and density 3000 kg/m³. -/
def gameAfterStartLevel1 : GameEngine :=
  { state := GameState.PLAYING, level := 1, score := 0, time_remaining := 300,
    asteroid := some
      { name := "Threat-1", diameter := 10 / 1000, velocity := 15,
        density := 3000, position := (0, 0, 0) },
    simulation_time := 0 }

/-- The engine after the two-operation sequence `start_game(1)` then
`update_game_state(301)` from a fresh engine. -/
def gameAfterOvershoot : GameEngine :=
  GameEngine.update_game_state gameAfterStartLevel1 301

/-- C3, counterexample: the sequence `start_game(1)` (time limit 300 s) then
`update_game_state(301)` from a fresh engine is reachable with
non-negative deltas, yet leaves `time_remaining` = −1: the code sets the
state to GAME_OVER but keeps the negative value in the field. -/
theorem game_time_remaining_goes_negative :
    GameEngine.Reachable gameAfterOvershoot ∧ gameAfterOvershoot.time_remaining < 0 := by
  constructor
  · exact GameEngine.Reachable.update gameAfterStartLevel1 301
      (GameEngine.Reachable.start GameEngine.init gameAfterStartLevel1 1 15 3000
        GameEngine.Reachable.init rfl) (by norm_num)
  · norm_num [gameAfterOvershoot, gameAfterStartLevel1, GameEngine.update_game_state]

/-- Helper for C3: every configured level has a positive time limit. -/
theorem game_levels_time_limit_pos (level : ℕ) (cfg : Constants.LevelConfig)
    (h : Constants.GAME_LEVELS level = some cfg) : 0 < cfg.time_limit := by
  unfold Constants.GAME_LEVELS at h
  repeat' split at h
  all_goals simp_all
  all_goals subst h
  all_goals decide

/-- C3, amended: `time_remaining` can become negative (an update that
overshoots the limit stores the negative remainder and ends the game),
but it is never negative while the game is still active: in every
reachable engine state whose `state` is PLAYING or PAUSED,
`time_remaining` is strictly positive. -/
theorem game_time_positive_while_active (g : GameEngine)
    (hr : GameEngine.Reachable g)
    (hs : g.state = GameState.PLAYING ∨ g.state = GameState.PAUSED) :
    0 < g.time_remaining := by
  induction hr with
  | init => simp [GameEngine.init] at hs
  | start g g' level v d _ hok _ =>
      unfold GameEngine.start_game at hok
      cases hlv : Constants.GAME_LEVELS level with
      | none => rw [hlv] at hok; cases hok
      | some cfg =>
          rw [hlv] at hok
          injection hok with hok
          subst hok
          exact game_levels_time_limit_pos level cfg hlv
  | update g delta _ _ ih =>
      unfold GameEngine.update_game_state at hs ⊢
      by_cases h1 : g.state ≠ GameState.PLAYING
      · rw [if_pos h1] at hs ⊢
        exact ih hs
      · rw [if_neg h1] at hs ⊢
        dsimp only at hs ⊢
        by_cases h2 : g.time_remaining - delta ≤ 0
        · rw [if_pos h2] at hs
          simp at hs
        · rw [if_neg h2] at hs ⊢
          push_neg at h2
          cases ha : g.asteroid with
          | none =>
              exact h2
          | some a =>
              dsimp only
              by_cases h3 :
                  GameEngine._check_impact (GameEngine._update_asteroid_position a delta) = true
              · rw [if_pos h3]
                exact h2
              · rw [if_neg h3]
                exact h2
  | pause g _ ih =>
      unfold GameEngine.pause_game at hs ⊢
      by_cases hp : g.state = GameState.PLAYING
      · rw [if_pos hp] at hs ⊢
        exact ih (Or.inl hp)
      · rw [if_neg hp] at hs ⊢
        exact ih hs
  | resume g _ ih =>
      unfold GameEngine.resume_game at hs ⊢
      by_cases hp : g.state = GameState.PAUSED
      · rw [if_pos hp] at hs ⊢
        exact ih (Or.inr hp)
      · rw [if_neg hp] at hs ⊢
        exact ih hs
  | reset g _ _ =>
      simp [GameEngine.reset_game, GameEngine.init] at hs

/-- C3, witness for the amended theorem: the reachable engine right after
`start_game(1)` is PLAYING and indeed has positive time remaining. -/
theorem game_time_positive_while_active_witness :
    (0 : ℚ) < gameAfterStartLevel1.time_remaining :=
  game_time_positive_while_active gameAfterStartLevel1
    (GameEngine.Reachable.start GameEngine.init gameAfterStartLevel1 1 15 3000
      GameEngine.Reachable.init rfl)
    (Or.inl rfl)

/-- C7, helper: the engine used in the witness tick. -/
def asteroidBeforeTick : Asteroid :=
  { name := "W", diameter := 1, velocity := 0, density := 3000,
    position := (10000, 0, 0) }

/-- C7, helper: a PLAYING engine one second before nothing in particular. -/
def gameBeforeTick : GameEngine :=
  { state := GameState.PLAYING, level := 2, score := 5, time_remaining := 300,
    asteroid := some asteroidBeforeTick, simulation_time := 7 }

/-- C7: a game tick is simple arithmetic on the scalar fields: when the state
is PLAYING, `delta_time` is positive and smaller than `time_remaining`, and
the moved asteroid has not impacted, `update_game_state` decreases
`time_remaining` by exactly `delta_time`, increases `simulation_time` by
exactly `delta_time`, changes the asteroid only in its position, and leaves
score, level and state unchanged. -/
theorem update_game_state_tick_frame (g : GameEngine) (a : Asteroid) (delta_time : ℚ)
    (hstate : g.state = GameState.PLAYING)
    (hdelta : 0 < delta_time)
    (hrem : delta_time < g.time_remaining)
    (hast : g.asteroid = some a)
    (hni : GameEngine._check_impact (GameEngine._update_asteroid_position a delta_time)
      = false) :
    (GameEngine.update_game_state g delta_time).time_remaining
        = g.time_remaining - delta_time ∧
    (GameEngine.update_game_state g delta_time).simulation_time
        = g.simulation_time + delta_time ∧
    (GameEngine.update_game_state g delta_time).score = g.score ∧
    (GameEngine.update_game_state g delta_time).level = g.level ∧
    (GameEngine.update_game_state g delta_time).state = g.state ∧
    (GameEngine.update_game_state g delta_time).asteroid
        = some { a with
            position := (GameEngine._update_asteroid_position a delta_time).position } := by
  have h1 : ¬(g.state ≠ GameState.PLAYING) := by simp [hstate]
  have h2 : ¬(g.time_remaining - delta_time ≤ 0) := not_le.mpr (by linarith)
  have h3 : ¬(GameEngine._check_impact (GameEngine._update_asteroid_position a delta_time)
      = true) := by simp [hni]
  unfold GameEngine.update_game_state
  rw [if_neg h1]
  dsimp only
  rw [if_neg h2, hast]
  dsimp only
  rw [if_neg h3]
  exact ⟨rfl, rfl, rfl, rfl, rfl, rfl⟩

/-- C7, witness: one tick of length 1 s on a concrete PLAYING engine whose
asteroid sits 10000 km out with zero velocity. -/
theorem update_game_state_tick_frame_witness :
    (GameEngine.update_game_state gameBeforeTick 1).time_remaining
        = gameBeforeTick.time_remaining - 1 ∧
    (GameEngine.update_game_state gameBeforeTick 1).simulation_time
        = gameBeforeTick.simulation_time + 1 ∧
    (GameEngine.update_game_state gameBeforeTick 1).score = gameBeforeTick.score ∧
    (GameEngine.update_game_state gameBeforeTick 1).level = gameBeforeTick.level ∧
    (GameEngine.update_game_state gameBeforeTick 1).state = gameBeforeTick.state ∧
    (GameEngine.update_game_state gameBeforeTick 1).asteroid
        = some { asteroidBeforeTick with
            position := (GameEngine._update_asteroid_position asteroidBeforeTick 1).position } :=
  update_game_state_tick_frame gameBeforeTick asteroidBeforeTick 1 rfl (by norm_num)
    (by norm_num [gameBeforeTick]) rfl
    (by norm_num [GameEngine._check_impact, GameEngine._update_asteroid_position,
      asteroidBeforeTick])

/-- C9, helper: `GAME_LEVELS` has exactly the keys 1..5. -/
theorem game_levels_none_iff (level : ℕ) :
    Constants.GAME_LEVELS level = none
      ↔ ¬(level = 1 ∨ level = 2 ∨ level = 3 ∨ level = 4 ∨ level = 5) := by
  unfold Constants.GAME_LEVELS
  split_ifs <;> simp_all

/-- C9: `start_game` raises ValueError (modelled `Except.error ()`) exactly
when the level is not one of {1, 2, 3, 4, 5}; on every valid level it
returns an engine whose state is PLAYING, whose score is reset to 0 and
whose `time_remaining` is the `time_limit` configured for the level in
`GAME_LEVELS`. -/
theorem start_game_level_validation (g : GameEngine) (level : ℕ) (v d : ℚ) :
    (GameEngine.start_game g level v d = Except.error ()
        ↔ ¬(level = 1 ∨ level = 2 ∨ level = 3 ∨ level = 4 ∨ level = 5)) ∧
    (∀ cfg g', Constants.GAME_LEVELS level = some cfg →
      GameEngine.start_game g level v d = Except.ok g' →
      g'.state = GameState.PLAYING ∧ g'.score = 0 ∧
        g'.time_remaining = cfg.time_limit) := by
  constructor
  · rw [← game_levels_none_iff]
    unfold GameEngine.start_game
    cases h : Constants.GAME_LEVELS level <;> simp [h]
  · intro cfg g' hcfg hok
    unfold GameEngine.start_game at hok
    rw [hcfg] at hok
    injection hok with hok
    subst hok
    exact ⟨rfl, rfl, rfl⟩

/-- C9, witness: level 7 is rejected, and starting level 1 yields a PLAYING
engine with score 0 and the configured 300 s time limit. -/
theorem start_game_level_validation_witness :
    GameEngine.start_game GameEngine.init 7 15 3000 = Except.error () ∧
    (gameAfterStartLevel1.state = GameState.PLAYING ∧ gameAfterStartLevel1.score = 0 ∧
      gameAfterStartLevel1.time_remaining = (300 : ℚ)) :=
  ⟨(start_game_level_validation GameEngine.init 7 15 3000).1.mpr (by decide),
   (start_game_level_validation GameEngine.init 1 15 3000).2
     ⟨10, 300, "Easy"⟩ gameAfterStartLevel1 rfl rfl⟩

/-!
Module-level deflection calculators, `src/backend/calculations/mitigation.py`.
These are purely rational formulas, embedded over `ℚ`.
-/

namespace Mitigation

/-- Python `calculate_kinetic_impactor_deflection`,
`src/backend/calculations/mitigation.py` lines 7-25. -/
def calculate_kinetic_impactor_deflection (asteroid_mass deflection_force : ℚ) : ℚ :=
  let base_deflection : ℚ := 0.3
  let mass_factor := min 1 (1e12 / asteroid_mass)
  let force_factor := deflection_force
  let deflection_percentage :=
    base_deflection * mass_factor * force_factor * Constants.DEFLECTION_EFFICIENCY
  min 1 deflection_percentage

/-- Python `calculate_gravity_tractor_deflection`,
`src/backend/calculations/mitigation.py` lines 27-45. -/
def calculate_gravity_tractor_deflection (asteroid_mass deflection_force : ℚ) : ℚ :=
  let base_deflection : ℚ := 0.2
  let mass_factor := min 1 (asteroid_mass / 1e12)
  let force_factor := deflection_force
  let deflection_percentage :=
    base_deflection * mass_factor * force_factor * Constants.DEFLECTION_EFFICIENCY
  min 1 deflection_percentage

/-- Python `calculate_laser_ablation_deflection`,
`src/backend/calculations/mitigation.py` lines 47-65. -/
def calculate_laser_ablation_deflection (asteroid_mass deflection_force : ℚ) : ℚ :=
  let base_deflection : ℚ := 0.4
  let mass_factor := min 1 (1e10 / asteroid_mass)
  let force_factor := deflection_force ^ 2
  let deflection_percentage :=
    base_deflection * mass_factor * force_factor * Constants.DEFLECTION_EFFICIENCY
  min 1 deflection_percentage

end Mitigation

/-- C10: for every positive asteroid mass and deflection force in [0, 1], each
of the three module-level deflection calculators returns a deflection
percentage in the closed interval [0, 1]. -/
theorem deflection_percentages_in_unit_interval (m f : ℚ)
    (hm : 0 < m) (hf0 : 0 ≤ f) (hf1 : f ≤ 1) :
    (0 ≤ Mitigation.calculate_kinetic_impactor_deflection m f ∧
      Mitigation.calculate_kinetic_impactor_deflection m f ≤ 1) ∧
    (0 ≤ Mitigation.calculate_gravity_tractor_deflection m f ∧
      Mitigation.calculate_gravity_tractor_deflection m f ≤ 1) ∧
    (0 ≤ Mitigation.calculate_laser_ablation_deflection m f ∧
      Mitigation.calculate_laser_ablation_deflection m f ≤ 1) := by
  unfold Mitigation.calculate_kinetic_impactor_deflection
    Mitigation.calculate_gravity_tractor_deflection
    Mitigation.calculate_laser_ablation_deflection
    Constants.DEFLECTION_EFFICIENCY
  dsimp only
  have hk : (0 : ℚ) ≤ min 1 (1e12 / m) := le_min (by norm_num) (by positivity)
  have hg : (0 : ℚ) ≤ min 1 (m / 1e12) := le_min (by norm_num) (by positivity)
  have hl : (0 : ℚ) ≤ min 1 (1e10 / m) := le_min (by norm_num) (by positivity)
  refine ⟨⟨le_min (by norm_num) ?_, min_le_left _ _⟩,
          ⟨le_min (by norm_num) ?_, min_le_left _ _⟩,
          ⟨le_min (by norm_num) ?_, min_le_left _ _⟩⟩
  · have := mul_nonneg (mul_nonneg (by norm_num : (0:ℚ) ≤ 0.3) hk) hf0
    linarith [mul_nonneg this (by norm_num : (0:ℚ) ≤ 0.5)]
  · have := mul_nonneg (mul_nonneg (by norm_num : (0:ℚ) ≤ 0.2) hg) hf0
    linarith [mul_nonneg this (by norm_num : (0:ℚ) ≤ 0.5)]
  · have := mul_nonneg (mul_nonneg (by norm_num : (0:ℚ) ≤ 0.4) hl) (sq_nonneg f)
    linarith [mul_nonneg this (by norm_num : (0:ℚ) ≤ 0.5)]

/-- C10, witness at mass 1 kg and force 1. -/
theorem deflection_percentages_in_unit_interval_witness :
    (0 ≤ Mitigation.calculate_kinetic_impactor_deflection 1 1 ∧
      Mitigation.calculate_kinetic_impactor_deflection 1 1 ≤ 1) ∧
    (0 ≤ Mitigation.calculate_gravity_tractor_deflection 1 1 ∧
      Mitigation.calculate_gravity_tractor_deflection 1 1 ≤ 1) ∧
    (0 ≤ Mitigation.calculate_laser_ablation_deflection 1 1 ∧
      Mitigation.calculate_laser_ablation_deflection 1 1 ≤ 1) :=
  deflection_percentages_in_unit_interval 1 1 (by norm_num) (by norm_num) (by norm_num)

/-!
`MitigationSystem` in `src/backend/api/mitigation_system.py`.

Each of the four deflection calculators wraps its whole body in
`try/except`, returning a zeroed `DeflectionResult` on any exception.  Each
body is embedded as a `compute_*` function into `Except Unit _`, whose
error condition is exactly the set of inputs on which the Python body
raises (ZeroDivisionError on a pure-`float` division by zero; divisions of
a `np.float64` — downstream of `np.sqrt` in the nuclear calculator — do
not raise, they produce inf/nan, are idealised here by the Lean convention
`x / 0 = 0`, and are therefore not error cases).  The public
`calculate_*` function is the `try/except` wrapper.
-/

namespace MitigationSystem

/-- The dict built by `MitigationSystem._calculate_orbital_deflection`,
`src/backend/api/mitigation_system.py` lines 275-296. -/
structure OrbitalChange where
  semi_major_axis_change : ℝ
  eccentricity_change : ℝ
  inclination_change : ℝ
  deflection_distance : ℝ

/-- The `DeflectionResult` dataclass, `src/backend/api/mitigation_system.py`
lines 24-33.  `orbital_change` is a dict: `none` models the empty dict of
the zeroed result. -/
structure DeflectionResult where
  success : Bool
  velocity_change : ℝ
  orbital_change : Option OrbitalChange
  deflection_distance : ℝ
  confidence_level : ℝ
  mission_cost : ℝ
  mission_duration : ℝ

/-- The zeroed `DeflectionResult` built in every `except` branch of the four
calculators (e.g. lines 93-101). -/
def zeroed_deflection_result : DeflectionResult :=
  { success := false, velocity_change := 0, orbital_change := none,
    deflection_distance := 0, confidence_level := 0, mission_cost := 0,
    mission_duration := 0 }

/-- Python `MitigationSystem._calculate_orbital_deflection`, lines 275-296. -/
noncomputable def _calculate_orbital_deflection
    (velocity_change deflection_time impact_velocity : ℝ) : OrbitalChange :=
  let time_to_impact := deflection_time * 365.25 * 24 * 3600
  let deflection_distance := velocity_change * time_to_impact / 1000
  { semi_major_axis_change := velocity_change / impact_velocity * 0.01,
    eccentricity_change := velocity_change / impact_velocity * 0.001,
    inclination_change := velocity_change / impact_velocity * 0.1,
    deflection_distance := deflection_distance }

/-- Python `MitigationSystem._estimate_kinetic_impactor_cost`, lines 298-306. -/
noncomputable def _estimate_kinetic_impactor_cost
    (spacecraft_mass deflection_time : ℝ) : ℝ :=
  let base_cost : ℝ := 325e6
  let mass_factor := (spacecraft_mass / 500) ^ (0.5 : ℝ)
  let time_factor := (10 / deflection_time) ^ (0.3 : ℝ)
  base_cost * mass_factor * time_factor

/-- Python `MitigationSystem._estimate_gravity_tractor_cost`, lines 308-316. -/
noncomputable def _estimate_gravity_tractor_cost
    (spacecraft_mass deflection_time : ℝ) : ℝ :=
  let base_cost : ℝ := 500e6
  let mass_factor := (spacecraft_mass / 1000) ^ (0.6 : ℝ)
  let time_factor := deflection_time / 5
  base_cost * mass_factor * time_factor

/-- Python `MitigationSystem._estimate_ion_beam_cost`, lines 318-326. -/
noncomputable def _estimate_ion_beam_cost
    (ion_beam_thrust deflection_time : ℝ) : ℝ :=
  let base_cost : ℝ := 800e6
  let thrust_factor := (ion_beam_thrust / 0.1) ^ (0.4 : ℝ)
  let time_factor := deflection_time / 3
  base_cost * thrust_factor * time_factor

/-- Python `MitigationSystem._estimate_nuclear_cost`, lines 328-336. -/
noncomputable def _estimate_nuclear_cost
    (nuclear_yield_megatons deflection_time : ℝ) : ℝ :=
  let base_cost : ℝ := 2000e6
  let yield_factor := (nuclear_yield_megatons / 1) ^ (0.3 : ℝ)
  let time_factor := (1 / deflection_time) ^ (0.5 : ℝ)
  base_cost * yield_factor * time_factor

/-- Body of `MitigationSystem.calculate_kinetic_impactor_deflection`,
lines 53-89.  The body raises ZeroDivisionError exactly when
`asteroid_mass = 0` (line 61), `impact_velocity = 0` (line 290) or
`deflection_time = 0` (line 304). -/
noncomputable def compute_kinetic_impactor_deflection
    (asteroid_mass spacecraft_mass approach_velocity deflection_time impact_velocity : ℝ) :
    Except Unit DeflectionResult :=
  if asteroid_mass = 0 ∨ impact_velocity = 0 ∨ deflection_time = 0 then Except.error ()
  else
    let momentum_transfer_efficiency : ℝ := 3.5
    let momentum_change := spacecraft_mass * approach_velocity * momentum_transfer_efficiency
    let velocity_change := momentum_change / asteroid_mass
    let orbital_deflection :=
      _calculate_orbital_deflection velocity_change deflection_time impact_velocity
    let deflection_distance := orbital_deflection.deflection_distance
    let mission_cost := _estimate_kinetic_impactor_cost spacecraft_mass deflection_time
    Except.ok
      { success := decide (deflection_distance > 6371),
        velocity_change := velocity_change,
        orbital_change := some orbital_deflection,
        deflection_distance := deflection_distance,
        confidence_level := min 0.95 (0.5 + 0.1 * deflection_time),
        mission_cost := mission_cost,
        mission_duration := deflection_time }

/-- Python `MitigationSystem.calculate_kinetic_impactor_deflection`, lines 44-101:
the `try/except` wrapper around the body. -/
noncomputable def calculate_kinetic_impactor_deflection
    (asteroid_mass spacecraft_mass approach_velocity deflection_time impact_velocity : ℝ) :
    DeflectionResult :=
  match compute_kinetic_impactor_deflection asteroid_mass spacecraft_mass
      approach_velocity deflection_time impact_velocity with
  | Except.ok r => r
  | Except.error _ => zeroed_deflection_result

/-- Body of `MitigationSystem.calculate_gravity_tractor_deflection`,
lines 112-149.  The body raises ZeroDivisionError exactly when
`hover_distance = 0` (line 114), `asteroid_mass = 0` (line 119) or
`impact_velocity = 0` (line 290). -/
noncomputable def compute_gravity_tractor_deflection
    (asteroid_mass spacecraft_mass hover_distance deflection_time impact_velocity : ℝ) :
    Except Unit DeflectionResult :=
  if hover_distance = 0 ∨ asteroid_mass = 0 ∨ impact_velocity = 0 then Except.error ()
  else
    let gravitational_constant : ℝ := 6.67430e-11
    let gravitational_force :=
      gravitational_constant * spacecraft_mass * asteroid_mass / hover_distance ^ 2
    let asteroid_acceleration := gravitational_force / asteroid_mass
    let velocity_change := asteroid_acceleration * (deflection_time * 365.25 * 24 * 3600)
    let orbital_deflection :=
      _calculate_orbital_deflection velocity_change deflection_time impact_velocity
    let deflection_distance := orbital_deflection.deflection_distance
    let mission_cost := _estimate_gravity_tractor_cost spacecraft_mass deflection_time
    Except.ok
      { success := decide (deflection_distance > 6371),
        velocity_change := velocity_change,
        orbital_change := some orbital_deflection,
        deflection_distance := deflection_distance,
        confidence_level := min 0.8 (0.3 + 0.05 * deflection_time),
        mission_cost := mission_cost,
        mission_duration := deflection_time }

/-- Python `MitigationSystem.calculate_gravity_tractor_deflection`, lines 103-161. -/
noncomputable def calculate_gravity_tractor_deflection
    (asteroid_mass spacecraft_mass hover_distance deflection_time impact_velocity : ℝ) :
    DeflectionResult :=
  match compute_gravity_tractor_deflection asteroid_mass spacecraft_mass
      hover_distance deflection_time impact_velocity with
  | Except.ok r => r
  | Except.error _ => zeroed_deflection_result

/-- Body of `MitigationSystem.calculate_ion_beam_deflection`, lines 171-203.
The body raises ZeroDivisionError exactly when `asteroid_mass = 0`
(line 176) or `impact_velocity = 0` (line 290). -/
noncomputable def compute_ion_beam_deflection
    (asteroid_mass ion_beam_thrust deflection_time impact_velocity : ℝ) :
    Except Unit DeflectionResult :=
  if asteroid_mass = 0 ∨ impact_velocity = 0 then Except.error ()
  else
    let total_impulse := ion_beam_thrust * (deflection_time * 365.25 * 24 * 3600)
    let velocity_change := total_impulse / asteroid_mass
    let orbital_deflection :=
      _calculate_orbital_deflection velocity_change deflection_time impact_velocity
    let deflection_distance := orbital_deflection.deflection_distance
    let mission_cost := _estimate_ion_beam_cost ion_beam_thrust deflection_time
    Except.ok
      { success := decide (deflection_distance > 6371),
        velocity_change := velocity_change,
        orbital_change := some orbital_deflection,
        deflection_distance := deflection_distance,
        confidence_level := min 0.9 (0.6 + 0.1 * deflection_time),
        mission_cost := mission_cost,
        mission_duration := deflection_time }

/-- Python `MitigationSystem.calculate_ion_beam_deflection`, lines 163-215. -/
noncomputable def calculate_ion_beam_deflection
    (asteroid_mass ion_beam_thrust deflection_time impact_velocity : ℝ) :
    DeflectionResult :=
  match compute_ion_beam_deflection asteroid_mass ion_beam_thrust
      deflection_time impact_velocity with
  | Except.ok r => r
  | Except.error _ => zeroed_deflection_result

/-- Body of `MitigationSystem.calculate_nuclear_deflection`, lines 226-261.
`momentum_transfer` is `np.sqrt(...)`, an `np.float64`, so the divisions
by `asteroid_mass` and `impact_velocity` downstream never raise (numpy
yields inf/nan with a warning); the only raising statement is the
pure-`float` `(1 / deflection_time)` in `_estimate_nuclear_cost`
(line 334), so the body raises exactly when `deflection_time = 0`. -/
noncomputable def compute_nuclear_deflection
    (asteroid_mass nuclear_yield_megatons detonation_distance deflection_time
      impact_velocity : ℝ) :
    Except Unit DeflectionResult :=
  if deflection_time = 0 then Except.error ()
  else
    let nuclear_yield_joules := nuclear_yield_megatons * 4.184e15
    let momentum_transfer := Real.sqrt (2 * nuclear_yield_joules * asteroid_mass)
    let velocity_change := momentum_transfer / asteroid_mass
    let orbital_deflection :=
      _calculate_orbital_deflection velocity_change deflection_time impact_velocity
    let deflection_distance := orbital_deflection.deflection_distance
    let mission_cost := _estimate_nuclear_cost nuclear_yield_megatons deflection_time
    Except.ok
      { success := decide (deflection_distance > 6371),
        velocity_change := velocity_change,
        orbital_change := some orbital_deflection,
        deflection_distance := deflection_distance,
        confidence_level := min 0.7 (0.4 + 0.05 * deflection_time),
        mission_cost := mission_cost,
        mission_duration := deflection_time }

/-- Python `MitigationSystem.calculate_nuclear_deflection`, lines 217-273
(`detonation_distance` is accepted and unused, as in the source). -/
noncomputable def calculate_nuclear_deflection
    (asteroid_mass nuclear_yield_megatons detonation_distance deflection_time
      impact_velocity : ℝ) :
    DeflectionResult :=
  match compute_nuclear_deflection asteroid_mass nuclear_yield_megatons
      detonation_distance deflection_time impact_velocity with
  | Except.ok r => r
  | Except.error _ => zeroed_deflection_result

end MitigationSystem

/-- C4: none of the four deflection calculators propagates an exception: on
every input, either the body succeeds and its result is returned
unchanged, or the body raises and the calculator returns the zeroed
`DeflectionResult` (success=False, velocity_change=0, empty
orbital_change, deflection_distance=0, confidence_level=0,
mission_cost=0, mission_duration=0). -/
theorem mitigation_calculators_never_propagate :
    (∀ am sm av dt iv : ℝ,
      (MitigationSystem.compute_kinetic_impactor_deflection am sm av dt iv
          = Except.error () ∧
        MitigationSystem.calculate_kinetic_impactor_deflection am sm av dt iv
          = MitigationSystem.zeroed_deflection_result) ∨
      MitigationSystem.compute_kinetic_impactor_deflection am sm av dt iv
        = Except.ok (MitigationSystem.calculate_kinetic_impactor_deflection am sm av dt iv)) ∧
    (∀ am sm hd dt iv : ℝ,
      (MitigationSystem.compute_gravity_tractor_deflection am sm hd dt iv
          = Except.error () ∧
        MitigationSystem.calculate_gravity_tractor_deflection am sm hd dt iv
          = MitigationSystem.zeroed_deflection_result) ∨
      MitigationSystem.compute_gravity_tractor_deflection am sm hd dt iv
        = Except.ok (MitigationSystem.calculate_gravity_tractor_deflection am sm hd dt iv)) ∧
    (∀ am th dt iv : ℝ,
      (MitigationSystem.compute_ion_beam_deflection am th dt iv = Except.error () ∧
        MitigationSystem.calculate_ion_beam_deflection am th dt iv
          = MitigationSystem.zeroed_deflection_result) ∨
      MitigationSystem.compute_ion_beam_deflection am th dt iv
        = Except.ok (MitigationSystem.calculate_ion_beam_deflection am th dt iv)) ∧
    (∀ am ny dd dt iv : ℝ,
      (MitigationSystem.compute_nuclear_deflection am ny dd dt iv = Except.error () ∧
        MitigationSystem.calculate_nuclear_deflection am ny dd dt iv
          = MitigationSystem.zeroed_deflection_result) ∨
      MitigationSystem.compute_nuclear_deflection am ny dd dt iv
        = Except.ok (MitigationSystem.calculate_nuclear_deflection am ny dd dt iv)) := by
  refine ⟨?_, ?_, ?_, ?_⟩
  · intro am sm av dt iv
    unfold MitigationSystem.calculate_kinetic_impactor_deflection
    cases h : MitigationSystem.compute_kinetic_impactor_deflection am sm av dt iv with
    | error e => cases e; exact Or.inl ⟨rfl, rfl⟩
    | ok r => exact Or.inr rfl
  · intro am sm hd dt iv
    unfold MitigationSystem.calculate_gravity_tractor_deflection
    cases h : MitigationSystem.compute_gravity_tractor_deflection am sm hd dt iv with
    | error e => cases e; exact Or.inl ⟨rfl, rfl⟩
    | ok r => exact Or.inr rfl
  · intro am th dt iv
    unfold MitigationSystem.calculate_ion_beam_deflection
    cases h : MitigationSystem.compute_ion_beam_deflection am th dt iv with
    | error e => cases e; exact Or.inl ⟨rfl, rfl⟩
    | ok r => exact Or.inr rfl
  · intro am ny dd dt iv
    unfold MitigationSystem.calculate_nuclear_deflection
    cases h : MitigationSystem.compute_nuclear_deflection am ny dd dt iv with
    | error e => cases e; exact Or.inl ⟨rfl, rfl⟩
    | ok r => exact Or.inr rfl
